import Mathlib

/-!
Verification of the appointment-matching and scheduling core of the
customer-service-bot repository (`src/booking.py`, with the duplicated
parsers in `src/main.py`).

The Python code is shallowly embedded: each Python function becomes a
Lean function over explicit state, and each call to Python's
`datetime.strptime` is embedded as a character-level parser that follows
CPython's `_strptime` regular expressions for the directives actually
used (`%Y %m %d %y %B %b %I %H %M %S %p`), including the full-match
requirement, the alternation order inside each directive's pattern, the
`\s+` translation of whitespace in a format string, the case-insensitive
matching of month names and AM/PM, and the value checks performed by the
`datetime` constructor afterwards (year at least 1, day within the
month's length, minutes/seconds below 60).
-/

/-- `Technician` dataclass of `src/booking.py` (id, name, zones,
business_units). -/
structure Technician where
  id : Nat
  name : String
  zones : List String
  business_units : List String
deriving DecidableEq, Repr

/-- `Appointment` dataclass of `src/booking.py`. -/
structure Appointment where
  customer_name : String
  technician_name : String
  service : String
  zip_code : String
  date : String
  time : String
deriving DecidableEq, Repr

/-- The mutable state of `BookingSystem` used by the matching core: the
technician roster and the append-only appointment ledger.  The Python
class also stores customer and location tables loaded from `data.json`,
which no operation of the scheduling core reads or writes, and which the
spec places outside the core (§1, §6). -/
structure BookingSystem where
  technicians : List Technician
  appointments : List Appointment
deriving DecidableEq, Repr

/-! ## Embedding of `datetime.strptime` character classes -/

/-- The characters matched by `\s` in CPython's `re` for ASCII input. -/
def isSpaceChar (c : Char) : Bool :=
  c == ' ' || c == '\t' || c == '\n' || c == '\r' || c == '\x0b' || c == '\x0c'

/-- Numeric value of an ASCII digit character. -/
def digitVal (c : Char) : Nat := c.toNat - 48

/-- Python's `str.strip()` with no argument, on ASCII input: remove
leading and trailing whitespace. -/
def stripChars (s : List Char) : List Char :=
  ((s.dropWhile isSpaceChar).reverse.dropWhile isSpaceChar).reverse

/-- Python's `str.upper()` on ASCII input. -/
def upperChars (s : List Char) : List Char := s.map Char.toUpper

/-- Python's `str.lower()` on ASCII input. -/
def lowerString (s : String) : String := ⟨s.data.map Char.toLower⟩

/-- Consume the longest run of whitespace characters. -/
def dropSpaces : List Char → List Char
  | c :: cs => if isSpaceChar c then dropSpaces cs else c :: cs
  | [] => []

/-- The regex fragment `\s+` (whitespace in a strptime format string is
rewritten to `\s+` by `TimeRE.pattern`): requires at least one
whitespace character.  None of the directives that can follow `\s+` in
the embedded formats start with whitespace, so consuming the whole run
greedily is equivalent to the backtracking regex. -/
def wsOne : List Char → Option (List Char)
  | c :: cs => if isSpaceChar c then some (dropSpaces cs) else none
  | [] => none

/-- A single literal character of a strptime format string. -/
def expectChar (c : Char) : List Char → Option (List Char)
  | c2 :: rest => if c2 = c then some rest else none
  | [] => none

/-- `%p`, compiled by `_strptime` to `(AM|PM)` with `re.IGNORECASE`.
Returns `true` for PM. -/
def parseAmPm : List Char → Option (Bool × List Char)
  | c1 :: c2 :: cs =>
    if (c1 = 'A' ∨ c1 = 'a') ∧ (c2 = 'M' ∨ c2 = 'm') then some (false, cs)
    else if (c1 = 'P' ∨ c1 = 'p') ∧ (c2 = 'M' ∨ c2 = 'm') then some (true, cs)
    else none
  | _ => none

/-- `%I`, compiled to `(1[0-2]|0[1-9]|[1-9])`.  The two-digit
alternatives are tried first, as in the regex; in every embedded format
the hour is followed by a non-digit, so the greedy choice never needs
the backtracking a regex engine would perform. -/
def parseHour12 : List Char → Option (Nat × List Char)
  | c1 :: c2 :: rest =>
    if c1 = '1' ∧ '0' ≤ c2 ∧ c2 ≤ '2' then some (10 + digitVal c2, rest)
    else if c1 = '0' ∧ '1' ≤ c2 ∧ c2 ≤ '9' then some (digitVal c2, rest)
    else if '1' ≤ c1 ∧ c1 ≤ '9' then some (digitVal c1, c2 :: rest)
    else none
  | [c1] => if '1' ≤ c1 ∧ c1 ≤ '9' then some (digitVal c1, []) else none
  | [] => none

/-- `%H`, compiled to `(2[0-3]|[0-1]\d|\d)`. -/
def parseHour24 : List Char → Option (Nat × List Char)
  | c1 :: c2 :: rest =>
    if c1 = '2' ∧ '0' ≤ c2 ∧ c2 ≤ '3' then some (20 + digitVal c2, rest)
    else if ('0' ≤ c1 ∧ c1 ≤ '1') ∧ '0' ≤ c2 ∧ c2 ≤ '9' then
      some (10 * digitVal c1 + digitVal c2, rest)
    else if '0' ≤ c1 ∧ c1 ≤ '9' then some (digitVal c1, c2 :: rest)
    else none
  | [c1] => if '0' ≤ c1 ∧ c1 ≤ '9' then some (digitVal c1, []) else none
  | [] => none

/-- `%M`, compiled to `([0-5]\d|\d)`. -/
def parseMinute : List Char → Option (Nat × List Char)
  | c1 :: c2 :: rest =>
    if ('0' ≤ c1 ∧ c1 ≤ '5') ∧ '0' ≤ c2 ∧ c2 ≤ '9' then
      some (10 * digitVal c1 + digitVal c2, rest)
    else if '0' ≤ c1 ∧ c1 ≤ '9' then some (digitVal c1, c2 :: rest)
    else none
  | [c1] => if '0' ≤ c1 ∧ c1 ≤ '9' then some (digitVal c1, []) else none
  | [] => none

/-- `%S`, compiled to `(6[0-1]|[0-5]\d|\d)`.  The leap-second values
60 and 61 pass the regex but make the `datetime` constructor raise, so
the whole format fails on them; in every embedded format the character
after `%S` is a non-digit, so modelling `%S` with the `%M` pattern gives
exactly the same accepted strings. -/
def parseSecond : List Char → Option (Nat × List Char) := parseMinute

/-- Conversion of a parsed `%I`/`%p` pair to a 24-hour value, as in
`_strptime`'s hour post-processing. -/
def to24Hour (h12 : Nat) (isPM : Bool) : Nat :=
  if isPM then (if h12 = 12 then 12 else h12 + 12)
  else (if h12 = 12 then 0 else h12)

/-! ## The time formats used by the code -/

/-- `datetime.strptime(s, "%I:%M %p")`: the only format used by
`BookingSystem._is_booked`.  Returns (hour24, minute). -/
def strptime_I_M_p (s : List Char) : Option (Nat × Nat) := do
  let (h, s) ← parseHour12 s
  let s ← expectChar ':' s
  let (m, s) ← parseMinute s
  let s ← wsOne s
  let (pm, s) ← parseAmPm s
  if s = [] then pure (to24Hour h pm, m) else none

/-- `"%I:%M%p"`. -/
def strptime_I_Mp (s : List Char) : Option (Nat × Nat) := do
  let (h, s) ← parseHour12 s
  let s ← expectChar ':' s
  let (m, s) ← parseMinute s
  let (pm, s) ← parseAmPm s
  if s = [] then pure (to24Hour h pm, m) else none

/-- `"%I %p"`. -/
def strptime_I_p (s : List Char) : Option (Nat × Nat) := do
  let (h, s) ← parseHour12 s
  let s ← wsOne s
  let (pm, s) ← parseAmPm s
  if s = [] then pure (to24Hour h pm, 0) else none

/-- `"%I%p"`. -/
def strptime_Ip (s : List Char) : Option (Nat × Nat) := do
  let (h, s) ← parseHour12 s
  let (pm, s) ← parseAmPm s
  if s = [] then pure (to24Hour h pm, 0) else none

/-- `"%I:%M:%S %p"`; the parsed seconds are discarded by the
`"%I:%M %p"` rendering. -/
def strptime_I_M_S_p (s : List Char) : Option (Nat × Nat) := do
  let (h, s) ← parseHour12 s
  let s ← expectChar ':' s
  let (m, s) ← parseMinute s
  let s ← expectChar ':' s
  let (_, s) ← parseSecond s
  let s ← wsOne s
  let (pm, s) ← parseAmPm s
  if s = [] then pure (to24Hour h pm, m) else none

/-- `"%I:%M:%S%p"`. -/
def strptime_I_M_Sp (s : List Char) : Option (Nat × Nat) := do
  let (h, s) ← parseHour12 s
  let s ← expectChar ':' s
  let (m, s) ← parseMinute s
  let s ← expectChar ':' s
  let (_, s) ← parseSecond s
  let (pm, s) ← parseAmPm s
  if s = [] then pure (to24Hour h pm, m) else none

/-- `"%H:%M"`. -/
def strptime_H_M (s : List Char) : Option (Nat × Nat) := do
  let (h, s) ← parseHour24 s
  let s ← expectChar ':' s
  let (m, s) ← parseMinute s
  if s = [] then pure (h, m) else none

/-- `"%H:%M:%S"`. -/
def strptime_H_M_S (s : List Char) : Option (Nat × Nat) := do
  let (h, s) ← parseHour24 s
  let s ← expectChar ':' s
  let (m, s) ← parseMinute s
  let s ← expectChar ':' s
  let (_, s) ← parseSecond s
  if s = [] then pure (h, m) else none

/-- `"%H"`. -/
def strptime_H (s : List Char) : Option (Nat × Nat) := do
  let (h, s) ← parseHour24 s
  if s = [] then pure (h, 0) else none

/-- The value of `datetime.strptime(s, "%I:%M %p")` as minutes since
midnight, or `none` where the Python call raises `ValueError`.  This is
the parse performed on both time strings inside
`BookingSystem._is_booked`. -/
def parseTime12 (s : String) : Option Nat :=
  (strptime_I_M_p s.data).map fun hm => 60 * hm.1 + hm.2

/-- `strftime("%I:%M %p")` of a time given as 24-hour hour and minute:
two-digit 12-hour hour, two-digit minute, `AM`/`PM`. -/
def pad2 (n : Nat) : String := if n < 10 then "0" ++ toString n else toString n

def renderTime12 (h24 m : Nat) : String :=
  pad2 (if h24 % 12 = 0 then 12 else h24 % 12) ++ ":" ++ pad2 m ++ " " ++
    (if h24 < 12 then "AM" else "PM")

/-! ## The conflict check `BookingSystem._is_booked` -/

/-- Absolute difference in minutes, the value of
`abs((new_time - appt_time).total_seconds() / 60)` for two same-day
times with zero seconds. -/
def minuteDiff (a b : Nat) : Nat := max a b - min a b

/-- The body of the loop in `BookingSystem._is_booked` for one ledger
entry: skip entries for another technician name or another date; parse
both time strings with `strptime(_, "%I:%M %p")`; if both parse, flag a
conflict when the difference is under 120 minutes; if either raises
`ValueError`, fall back to exact string equality. -/
def conflictsWith (tech : Technician) (date time : String) (appt : Appointment) : Bool :=
  if appt.technician_name ≠ tech.name then false
  else if appt.date ≠ date then false
  else
    match parseTime12 appt.time, parseTime12 time with
    | some apptMinutes, some newMinutes => decide (minuteDiff apptMinutes newMinutes < 120)
    | _, _ => appt.time == time

/-- `BookingSystem._is_booked`: true when some ledger entry conflicts
(the Python loop returns `True` at the first conflicting entry). -/
def isBooked (appointments : List Appointment) (tech : Technician)
    (date time : String) : Bool :=
  appointments.any (conflictsWith tech date time)

/-! ## `find_technician` and `book_appointment` -/

/-- The per-technician condition of the loop in
`BookingSystem.find_technician` (the three `continue` guards), applied
to the already lower-cased service string. -/
def techMatches (appointments : List Appointment)
    (service zip_code date time : String) (tech : Technician) : Bool :=
  tech.business_units.contains service && tech.zones.contains zip_code &&
    !(isBooked appointments tech date time)

/-- `BookingSystem.find_technician`: lower-cases the service, then scans
the roster in order and returns the first technician whose
business_units contain the service, whose zones contain the zip code,
and who is not booked.  (Python's `str.lower` is embedded as
`lowerString`; the two agree on ASCII letters.) -/
def findTechnician (bs : BookingSystem) (service zip_code date time : String) :
    Option Technician :=
  bs.technicians.find?
    (techMatches bs.appointments (lowerString service) zip_code date time)

/-- The f-string returned by `book_appointment` when no technician is
found; note the `\n` escape before `Please`. -/
def failureMessage (service zip_code date time : String) : String :=
  "Sorry, no technician is available for " ++ service ++ " in zip code " ++
    zip_code ++ " on " ++ date ++ " at " ++ time ++
    ".\nPlease try a different time or date."

/-- The confirmation f-string returned on success. -/
def confirmationMessage (customer_name service tech_name zip_code date time : String) :
    String :=
  "Appointment confirmed!\n  Customer: " ++ customer_name ++ "\n  Service: " ++
    service ++ "\n  Technician: " ++ tech_name ++ "\n  Location: " ++ zip_code ++
    "\n  Date: " ++ date ++ "\n  Time: " ++ time ++ "\n"

/-- `BookingSystem.book_appointment`: returns the message and the
updated state (the Python method mutates `self.appointments` in place;
here the state is passed explicitly). -/
def bookAppointment (bs : BookingSystem)
    (customer_name service zip_code date time : String) : String × BookingSystem :=
  match findTechnician bs service zip_code date time with
  | none => (failureMessage service zip_code date time, bs)
  | some tech =>
    (confirmationMessage customer_name service tech.name zip_code date time,
     { bs with appointments := bs.appointments ++
        [⟨customer_name, tech.name, service, zip_code, date, time⟩] })

/-! ## `parse_time` (the full normalizer, identical in `src/booking.py`
and `src/main.py`) -/

/-- The optional `(AM|PM)?$` tail of the bare-hour regex
`^(\d{1,2})\s*(AM|PM)?$` (matched against the upper-cased input, with
no IGNORECASE flag): `none` when the meridiem group is absent,
`some isPM` otherwise. -/
def meridiemSuffix : List Char → Option (Option Bool)
  | [] => some none
  | ['A', 'M'] => some (some false)
  | ['P', 'M'] => some (some true)
  | _ => none

/-- The bare-hour special case `re.match(r'^(\d{1,2})\s*(AM|PM)?$', t)`
of `parse_time`.  The one-or-two-digit group is taken greedily; when
two digits are consumed the remainder must be `\s*(AM|PM)?$`, and the
one-digit backtracking alternative would leave a digit where only
whitespace or a letter can match, so greediness is equivalent to the
regex. -/
def bareHourMatch : List Char → Option (Nat × Option Bool)
  | c1 :: c2 :: rest =>
    if c1.isDigit ∧ c2.isDigit then
      (meridiemSuffix (dropSpaces rest)).map
        fun ap => (10 * digitVal c1 + digitVal c2, ap)
    else if c1.isDigit then
      (meridiemSuffix (dropSpaces (c2 :: rest))).map fun ap => (digitVal c1, ap)
    else none
  | [c1] => if c1.isDigit then some (digitVal c1, none) else none
  | [] => none

/-- The `am_pm_formats` list of `parse_time`, in source order. -/
def amPmFormats : List (List Char → Option (Nat × Nat)) :=
  [strptime_I_M_p, strptime_I_Mp, strptime_I_p, strptime_Ip,
   strptime_I_M_S_p, strptime_I_M_Sp]

/-- The `hour_minute_formats` list of `parse_time`, in source order. -/
def hourMinuteFormats : List (List Char → Option (Nat × Nat)) :=
  [strptime_H_M, strptime_H_M_S, strptime_H]

/-- `parse_time`: trim and upper-case; if the bare-hour regex matches,
return `None` for an hour outside 1..12 and otherwise rebuild
`"{hour:02d}:00 {am_pm}"` (defaulting to AM) and round-trip it through
`strptime`/`strftime("%I:%M %p")`, which for a validated hour is the
rendering below; otherwise try the 12-hour format list, then the
24-hour format list, rendering the first success with
`strftime("%I:%M %p")`. -/
def parseTime (time_str : String) : Option String :=
  let t := upperChars (stripChars time_str.data)
  match bareHourMatch t with
  | some (hour, amPm) =>
    if hour < 1 ∨ hour > 12 then none
    else some (renderTime12 (to24Hour hour (amPm.getD false)) 0)
  | none =>
    match amPmFormats.findSome? (fun f => f t) with
    | some hm => some (renderTime12 hm.1 hm.2)
    | none =>
      match hourMinuteFormats.findSome? (fun f => f t) with
      | some hm => some (renderTime12 hm.1 hm.2)
      | none => none

/-! ## Embedding of the `strptime` date formats used by `parse_date` -/

/-- `%d`, compiled to `(3[01]|[12]\d|0[1-9]|[1-9])`. -/
def parseDayNum : List Char → Option (Nat × List Char)
  | c1 :: c2 :: rest =>
    if c1 = '3' ∧ (c2 = '0' ∨ c2 = '1') then some (30 + digitVal c2, rest)
    else if ('1' ≤ c1 ∧ c1 ≤ '2') ∧ '0' ≤ c2 ∧ c2 ≤ '9' then
      some (10 * digitVal c1 + digitVal c2, rest)
    else if c1 = '0' ∧ '1' ≤ c2 ∧ c2 ≤ '9' then some (digitVal c2, rest)
    else if '1' ≤ c1 ∧ c1 ≤ '9' then some (digitVal c1, c2 :: rest)
    else none
  | [c1] => if '1' ≤ c1 ∧ c1 ≤ '9' then some (digitVal c1, []) else none
  | [] => none

/-- `%m`, compiled to `(1[0-2]|0[1-9]|[1-9])` — the same pattern as
`%I`. -/
def parseMonthNum : List Char → Option (Nat × List Char) := parseHour12

/-- `%Y`, compiled to `(\d\d\d\d)`. -/
def parse4DigitYear : List Char → Option (Nat × List Char)
  | c1 :: c2 :: c3 :: c4 :: rest =>
    if c1.isDigit ∧ c2.isDigit ∧ c3.isDigit ∧ c4.isDigit then
      some (1000 * digitVal c1 + 100 * digitVal c2 + 10 * digitVal c3 +
        digitVal c4, rest)
    else none
  | _ => none

/-- `%y`, compiled to `(\d\d)`, with `_strptime`'s century rule:
values up to 68 are 20xx, the rest 19xx. -/
def parse2DigitYear : List Char → Option (Nat × List Char)
  | c1 :: c2 :: rest =>
    if c1.isDigit ∧ c2.isDigit then
      let y := 10 * digitVal c1 + digitVal c2
      some (if y ≤ 68 then y + 2000 else y + 1900, rest)
    else none
  | _ => none

/-- C-locale full month names, as rendered by `strftime("%B")`. -/
def monthNames : List String :=
  ["January", "February", "March", "April", "May", "June", "July",
   "August", "September", "October", "November", "December"]

/-- C-locale abbreviated month names (`%b`). -/
def monthAbbrs : List String :=
  ["Jan", "Feb", "Mar", "Apr", "May", "Jun", "Jul", "Aug", "Sep", "Oct",
   "Nov", "Dec"]

/-- Case-insensitive removal of a month name from the front of the
input (the month-name group is compiled with `re.IGNORECASE`). -/
def stripNameCI : List Char → List Char → Option (List Char)
  | [], cs => some cs
  | _ :: _, [] => none
  | n :: ns, c :: cs => if n.toUpper = c.toUpper then stripNameCI ns cs else none

/-- First month name (1-based) of `names` matching at the front of the
input.  `_strptime` sorts the alternation longest-first, but no
C-locale month name (full or abbreviated) is a prefix of another, so
trying them in calendar order accepts the same strings. -/
def matchMonthAux : List String → Nat → List Char → Option (Nat × List Char)
  | [], _, _ => none
  | n :: ns, i, cs =>
    match stripNameCI n.data cs with
    | some rest => some (i, rest)
    | none => matchMonthAux ns (i + 1) cs

/-- One directive or literal of a strptime date format string. -/
inductive DateTok where
  | lit (c : Char)
  | ws
  | y4
  | y2
  | monthNum
  | dayNum
  | monthFull
  | monthAbbr
deriving DecidableEq, Repr

/-- A parsed date.  `_strptime` starts from the defaults year 1900,
month 1, day 1. -/
structure DateParts where
  year : Nat
  month : Nat
  day : Nat
deriving DecidableEq, Repr

/-- Run a date format against the input, requiring a full match as
`_strptime` does. -/
def runDateToks : List DateTok → List Char → DateParts → Option DateParts
  | [], [], p => some p
  | [], _ :: _, _ => none
  | tok :: toks, cs, p =>
    match tok with
    | .lit c =>
      match expectChar c cs with
      | some rest => runDateToks toks rest p
      | none => none
    | .ws =>
      match wsOne cs with
      | some rest => runDateToks toks rest p
      | none => none
    | .y4 =>
      match parse4DigitYear cs with
      | some (y, rest) => runDateToks toks rest { p with year := y }
      | none => none
    | .y2 =>
      match parse2DigitYear cs with
      | some (y, rest) => runDateToks toks rest { p with year := y }
      | none => none
    | .monthNum =>
      match parseMonthNum cs with
      | some (m, rest) => runDateToks toks rest { p with month := m }
      | none => none
    | .dayNum =>
      match parseDayNum cs with
      | some (d, rest) => runDateToks toks rest { p with day := d }
      | none => none
    | .monthFull =>
      match matchMonthAux monthNames 1 cs with
      | some (m, rest) => runDateToks toks rest { p with month := m }
      | none => none
    | .monthAbbr =>
      match matchMonthAux monthAbbrs 1 cs with
      | some (m, rest) => runDateToks toks rest { p with month := m }
      | none => none

/-- Gregorian leap-year rule, as used by `datetime`. -/
def isLeapYear (y : Nat) : Bool :=
  y % 4 == 0 && (y % 100 != 0 || y % 400 == 0)

def daysInMonth (y m : Nat) : Nat :=
  if m = 2 then (if isLeapYear y then 29 else 28)
  else if m = 4 ∨ m = 6 ∨ m = 9 ∨ m = 11 then 30
  else 31

/-- `datetime.strptime(s, fmt)` for a date format: run the compiled
regex, then apply the `datetime` constructor's range checks (year at
least MINYEAR = 1, month 1..12, day within the month), raising —
returning `none` — otherwise. -/
def strptimeDate (fmt : List DateTok) (s : List Char) : Option DateParts :=
  match runDateToks fmt s ⟨1900, 1, 1⟩ with
  | some p =>
    if 1 ≤ p.year ∧ (1 ≤ p.month ∧ p.month ≤ 12) ∧ 1 ≤ p.day ∧
        p.day ≤ daysInMonth p.year p.month then some p
    else none
  | none => none

def fmt_Ymd : List DateTok := [.y4, .lit '-', .monthNum, .lit '-', .dayNum]
def fmt_mdY_slash : List DateTok := [.monthNum, .lit '/', .dayNum, .lit '/', .y4]
def fmt_mdY_dash : List DateTok := [.monthNum, .lit '-', .dayNum, .lit '-', .y4]
def fmt_dmY_slash : List DateTok := [.dayNum, .lit '/', .monthNum, .lit '/', .y4]
def fmt_dmY_dash : List DateTok := [.dayNum, .lit '-', .monthNum, .lit '-', .y4]
def fmt_BdY : List DateTok := [.monthFull, .ws, .dayNum, .lit ',', .ws, .y4]
def fmt_bdY : List DateTok := [.monthAbbr, .ws, .dayNum, .lit ',', .ws, .y4]
def fmt_dBY : List DateTok := [.dayNum, .ws, .monthFull, .ws, .y4]
def fmt_dbY : List DateTok := [.dayNum, .ws, .monthAbbr, .ws, .y4]
def fmt_Ymd_slash : List DateTok := [.y4, .lit '/', .monthNum, .lit '/', .dayNum]
def fmt_mdy : List DateTok := [.monthNum, .lit '/', .dayNum, .lit '/', .y2]
def fmt_dmy : List DateTok := [.dayNum, .lit '/', .monthNum, .lit '/', .y2]

/-- The `date_formats` list of `parse_date`, in source order:
`"%Y-%m-%d"`, `"%m/%d/%Y"`, `"%m-%d-%Y"`, `"%d/%m/%Y"`, `"%d-%m-%Y"`,
`"%B %d, %Y"`, `"%b %d, %Y"`, `"%d %B %Y"`, `"%d %b %Y"`, `"%Y/%m/%d"`,
`"%m/%d/%y"`, `"%d/%m/%y"`. -/
def dateFormats : List (List DateTok) :=
  [fmt_Ymd, fmt_mdY_slash, fmt_mdY_dash, fmt_dmY_slash, fmt_dmY_dash,
   fmt_BdY, fmt_bdY, fmt_dBY, fmt_dbY, fmt_Ymd_slash, fmt_mdy, fmt_dmy]

/-- `strftime("%B %d, %Y")`: full month name, two-digit day, comma,
year. -/
def renderDate (p : DateParts) : String :=
  monthNames.getD (p.month - 1) "" ++ " " ++ pad2 p.day ++ ", " ++ toString p.year

/-- `parse_date`: strip the input, then try the formats in order and
render the first `strptime` success as `strftime("%B %d, %Y")`. -/
def parseDate (date_str : String) : Option String :=
  dateFormats.findSome? fun fmt =>
    (strptimeDate fmt (stripChars date_str.data)).map renderDate

/-! ## Aggregation queries -/

/-- `BookingSystem.get_available_services`: builds a Python `set` by
union of every technician's `business_units` and returns `sorted(...)`
of it — the distinct values in ascending order.  A Python `set` holds
each value once with no observable insertion order, so its sorted
listing is the sorted deduplication of the concatenation. -/
def getAvailableServices (bs : BookingSystem) : List String :=
  List.insertionSort (· ≤ ·) (bs.technicians.flatMap Technician.business_units).dedup

/-- `BookingSystem.get_service_zones`, identically over `zones`. -/
def getServiceZones (bs : BookingSystem) : List String :=
  List.insertionSort (· ≤ ·) (bs.technicians.flatMap Technician.zones).dedup

/-! ## Ledger invariant and reachable states -/

/-- The separation required between two ledger entries by the conflict
invariant: when they name the same technician on the same date and both
time strings parse as `"%I:%M %p"` values, those values are at least
120 minutes apart. -/
def apptGap (a b : Appointment) : Prop :=
  a.technician_name = b.technician_name → a.date = b.date →
    ∀ m1 m2, parseTime12 a.time = some m1 → parseTime12 b.time = some m2 →
      120 ≤ minuteDiff m1 m2

/-- The ledger invariant: every pair of distinct entries satisfies
`apptGap`. -/
def ConflictFree (l : List Appointment) : Prop := l.Pairwise apptGap

/-- States reachable from an empty appointments ledger by any sequence
of `book_appointment` calls. -/
inductive Reachable : BookingSystem → Prop where
  | init (roster : List Technician) : Reachable ⟨roster, []⟩
  | step (bs : BookingSystem) (customer_name service zip_code date time : String) :
      Reachable bs →
      Reachable (bookAppointment bs customer_name service zip_code date time).2

/-- Modelled from the spec: claim C9's failure-message template exactly
as the claim writes it — a single line with one space between the two
sentences.  The source file `src/booking.py` is present; this second
definition exists only to compare the spec's literal wording with the
message the code builds. -/
def claimedFailureMessage (service zip_code date time : String) : String :=
  "Sorry, no technician is available for " ++ service ++ " in zip code " ++
    zip_code ++ " on " ++ date ++ " at " ++ time ++
    ". Please try a different time or date."



/-! ## Helper lemmas -/

/-- `find?` returning a technician means its predicate held. -/
theorem techMatches_of_findTechnician {bs : BookingSystem}
    {service zip_code date time : String} {tech : Technician}
    (h : findTechnician bs service zip_code date time = some tech) :
    techMatches bs.appointments (lowerString service) zip_code date time tech = true :=
  List.find?_some h

/-- A technician returned by `find_technician` is not booked. -/
theorem not_booked_of_findTechnician {bs : BookingSystem}
    {service zip_code date time : String} {tech : Technician}
    (h : findTechnician bs service zip_code date time = some tech) :
    isBooked bs.appointments tech date time = false := by
  have := techMatches_of_findTechnician h
  simp only [techMatches, Bool.and_eq_true, Bool.not_eq_true'] at this
  exact this.2

/-! ## C10 -/

/-- C10: the conflict check identifies technicians by name only — two
technicians with equal `name` fields get identical `_is_booked` results
for every ledger, date and time, so a booking for one blocks the
other. -/
theorem c10_conflict_by_name_only (appts : List Appointment)
    (t1 t2 : Technician) (date time : String) (h : t1.name = t2.name) :
    isBooked appts t1 date time = isBooked appts t2 date time := by
  have hcw : conflictsWith t1 date time = conflictsWith t2 date time := by
    funext a; simp only [conflictsWith, h]
  simp only [isBooked, hcw]

/-- Witness for C10: two technicians sharing the name `Sam` but nothing
else give the same conflict answer against a concrete ledger. -/
theorem c10_witness :
    isBooked [⟨"Bob", "Sam", "plumbing", "94110", "June 01, 2026", "10:00 AM"⟩]
      ⟨1, "Sam", ["94110"], ["plumbing"]⟩ "June 01, 2026" "11:00 AM" =
    isBooked [⟨"Bob", "Sam", "plumbing", "94110", "June 01, 2026", "10:00 AM"⟩]
      ⟨2, "Sam", ["94112"], ["hvac"]⟩ "June 01, 2026" "11:00 AM" :=
  c10_conflict_by_name_only _ _ _ _ _ rfl

/-! ## C5 -/

/-- C5: `book_appointment` is atomic — on failure it returns the
unavailability message and the state is exactly unchanged; on success
it returns the confirmation message, the roster is unchanged, and the
ledger is the old ledger with exactly one appointment appended. -/
theorem c5_book_appointment_atomic (bs : BookingSystem)
    (customer_name service zip_code date time : String) :
    (findTechnician bs service zip_code date time = none ∧
      (bookAppointment bs customer_name service zip_code date time).1 =
        failureMessage service zip_code date time ∧
      (bookAppointment bs customer_name service zip_code date time).2 = bs) ∨
    (∃ tech, findTechnician bs service zip_code date time = some tech ∧
      (bookAppointment bs customer_name service zip_code date time).1 =
        confirmationMessage customer_name service tech.name zip_code date time ∧
      (bookAppointment bs customer_name service zip_code date time).2.technicians =
        bs.technicians ∧
      (bookAppointment bs customer_name service zip_code date time).2.appointments =
        bs.appointments ++
          [⟨customer_name, tech.name, service, zip_code, date, time⟩]) := by
  rcases h : findTechnician bs service zip_code date time with _ | tech
  · exact Or.inl ⟨rfl, by simp [bookAppointment, h], by simp [bookAppointment, h]⟩
  · exact Or.inr ⟨tech, rfl, by simp [bookAppointment, h],
      by simp [bookAppointment, h], by simp [bookAppointment, h]⟩

/-! ## C9 -/

/-- Counterexample for C9: at a concrete failing call, the message the
code returns is not the claim's single-line template — the code's
f-string contains a `\n` escape, so a newline (not a space) separates
the two sentences. -/
theorem c9_counterexample :
    (bookAppointment ⟨[], []⟩ "Alice" "plumbing" "94110" "June 01, 2026"
        "10:00 AM").1 ≠
      claimedFailureMessage "plumbing" "94110" "June 01, 2026" "10:00 AM" := by
  decide

/-- C9 (amended): whenever no technician is found, the returned message
is exactly the code's template with the four placeholders substituted —
identical to the claim's template except that a newline, not a space,
precedes `Please`. -/
theorem c9_failure_message_format (bs : BookingSystem)
    (customer_name service zip_code date time : String)
    (h : findTechnician bs service zip_code date time = none) :
    (bookAppointment bs customer_name service zip_code date time).1 =
      "Sorry, no technician is available for " ++ service ++ " in zip code " ++
        zip_code ++ " on " ++ date ++ " at " ++ time ++
        ".\nPlease try a different time or date." := by
  simp [bookAppointment, h, failureMessage]

/-- Witness for C9: an empty roster has no technician, and the message
comes out in the amended format. -/
theorem c9_witness :
    findTechnician ⟨[], []⟩ "plumbing" "94110" "June 01, 2026" "10:00 AM" = none ∧
    (bookAppointment ⟨[], []⟩ "Alice" "plumbing" "94110" "June 01, 2026"
        "10:00 AM").1 =
      "Sorry, no technician is available for " ++ "plumbing" ++ " in zip code " ++
        "94110" ++ " on " ++ "June 01, 2026" ++ " at " ++ "10:00 AM" ++
        ".\nPlease try a different time or date." :=
  ⟨rfl, c9_failure_message_format ⟨[], []⟩ "Alice" "plumbing" "94110"
    "June 01, 2026" "10:00 AM" rfl⟩

/-! ## C4 -/

/-- C4: for a ledger entry with the same technician name and date, if
either time string fails to parse as `"%I:%M %p"`, the conflict check
degrades to exact string equality — the entry conflicts exactly when
the two time strings are equal.  The `ValueError` is consumed inside
`_is_booked` (the embedding is a total Bool function), so a parse
failure never escapes the conflict check or fails the booking. -/
theorem c4_string_equality_fallback (appt : Appointment) (tech : Technician)
    (date time : String) (hname : appt.technician_name = tech.name)
    (hdate : appt.date = date)
    (hfail : parseTime12 appt.time = none ∨ parseTime12 time = none) :
    (conflictsWith tech date time appt = true ↔ appt.time = time) := by
  unfold conflictsWith
  rw [if_neg (by simp [hname]), if_neg (by simp [hdate])]
  cases h1 : parseTime12 appt.time with
  | none =>
    cases h2 : parseTime12 time <;> simp
  | some m1 =>
    cases h2 : parseTime12 time with
    | none => simp
    | some m2 => rw [h1, h2] at hfail; simp at hfail

/-- Witness for C4: the malformed stored time `"noon"` does not parse,
and the entry conflicts only under exact string equality. -/
theorem c4_witness :
    (⟨"Bob", "Sam", "plumbing", "94110", "June 01, 2026", "noon"⟩ :
        Appointment).technician_name = (⟨1, "Sam", ["94110"], ["plumbing"]⟩ :
        Technician).name ∧
    parseTime12 "noon" = none ∧
    (conflictsWith ⟨1, "Sam", ["94110"], ["plumbing"]⟩ "June 01, 2026" "10:00 AM"
        ⟨"Bob", "Sam", "plumbing", "94110", "June 01, 2026", "noon"⟩ = true ↔
      ("noon" : String) = "10:00 AM") :=
  ⟨rfl, by decide,
    c4_string_equality_fallback
      ⟨"Bob", "Sam", "plumbing", "94110", "June 01, 2026", "noon"⟩
      ⟨1, "Sam", ["94110"], ["plumbing"]⟩ "June 01, 2026" "10:00 AM" rfl rfl
      (Or.inl (by decide))⟩

/-! ## C2 -/

/-- C2: the conflict window is strict — for a ledger entry with the
same technician name whose stored time and the candidate time both
parse as `"%I:%M %p"` values, `_is_booked` flags a conflict exactly
when the absolute difference is under 120 minutes; and concretely,
after booking Sam at 10:00 AM, an 11:30 AM request on the same date is
rejected (ledger unchanged) while a 12:00 PM request succeeds (one
entry appended). -/
theorem c2_strict_conflict_window :
    (∀ (appt : Appointment) (tech : Technician) (time : String) (m1 m2 : Nat),
        appt.technician_name = tech.name →
        parseTime12 appt.time = some m1 → parseTime12 time = some m2 →
        (isBooked [appt] tech appt.date time = true ↔ minuteDiff m1 m2 < 120)) ∧
    ((bookAppointment
        (bookAppointment ⟨[⟨1, "Sam", ["94110"], ["plumbing"]⟩], []⟩
          "Alice" "plumbing" "94110" "June 01, 2026" "10:00 AM").2
        "Bob" "plumbing" "94110" "June 01, 2026" "11:30 AM").2 =
      (bookAppointment ⟨[⟨1, "Sam", ["94110"], ["plumbing"]⟩], []⟩
        "Alice" "plumbing" "94110" "June 01, 2026" "10:00 AM").2 ∧
     (bookAppointment
        (bookAppointment ⟨[⟨1, "Sam", ["94110"], ["plumbing"]⟩], []⟩
          "Alice" "plumbing" "94110" "June 01, 2026" "10:00 AM").2
        "Bob" "plumbing" "94110" "June 01, 2026" "12:00 PM").2.appointments =
      [⟨"Alice", "Sam", "plumbing", "94110", "June 01, 2026", "10:00 AM"⟩,
       ⟨"Bob", "Sam", "plumbing", "94110", "June 01, 2026", "12:00 PM"⟩]) := by
  constructor
  · intro appt tech time m1 m2 hname h1 h2
    simp [isBooked, conflictsWith, hname, h1, h2]
  · constructor <;> decide

/-- Witness for C2: the 90-minute gap between the stored 10:00 AM and
the requested 11:30 AM is inside the strict window. -/
theorem c2_witness :
    isBooked [⟨"Alice", "Sam", "plumbing", "94110", "June 01, 2026", "10:00 AM"⟩]
        ⟨1, "Sam", ["94110"], ["plumbing"]⟩
        (⟨"Alice", "Sam", "plumbing", "94110", "June 01, 2026",
          "10:00 AM"⟩ : Appointment).date "11:30 AM" = true ↔
      minuteDiff 600 690 < 120 :=
  c2_strict_conflict_window.1
    ⟨"Alice", "Sam", "plumbing", "94110", "June 01, 2026", "10:00 AM"⟩
    ⟨1, "Sam", ["94110"], ["plumbing"]⟩ "11:30 AM" 600 690 rfl (by decide)
    (by decide)

/-! ## C6 -/

/-- Counterexample for C6: `"plumbing"` equals `"Plumbing"` up to ASCII
case, yet a technician whose roster entry is `"Plumbing"` is not
matched — only the request is lower-cased, the roster entry is compared
exactly. -/
theorem c6_counterexample :
    lowerString "plumbing" = lowerString "Plumbing" ∧
    findTechnician ⟨[⟨1, "Sam", ["94110"], ["Plumbing"]⟩], []⟩ "plumbing"
      "94110" "June 01, 2026" "10:00 AM" = none := by
  constructor <;> decide

/-- C6 (amended): service matching is case-insensitive on the request
side only — requests equal up to ASCII case give identical
`find_technician` results, and the per-technician condition holds
exactly when the lower-cased request is literally an element of
`business_units`, the zip code literally an element of `zones`, and the
technician is not booked. -/
theorem c6_service_matching :
    (∀ (bs : BookingSystem) (s1 s2 zip_code date time : String),
        lowerString s1 = lowerString s2 →
        findTechnician bs s1 zip_code date time =
          findTechnician bs s2 zip_code date time) ∧
    (∀ (appts : List Appointment) (service zip_code date time : String)
        (tech : Technician),
        techMatches appts (lowerString service) zip_code date time tech = true ↔
          (lowerString service ∈ tech.business_units ∧ zip_code ∈ tech.zones ∧
            isBooked appts tech date time = false)) := by
  constructor
  · intro bs s1 s2 zip_code date time h
    simp only [findTechnician, h]
  · intro appts service zip_code date time tech
    simp [techMatches, List.contains, List.elem_iff, Bool.and_eq_true,
      Bool.not_eq_true', and_assoc]

/-- Witness for C6: the upper-cased request `"PLUMBING"` behaves like
`"plumbing"`. -/
theorem c6_witness :
    findTechnician ⟨[⟨1, "Sam", ["94110"], ["plumbing"]⟩], []⟩ "PLUMBING"
        "94110" "June 01, 2026" "10:00 AM" =
      findTechnician ⟨[⟨1, "Sam", ["94110"], ["plumbing"]⟩], []⟩ "plumbing"
        "94110" "June 01, 2026" "10:00 AM" :=
  c6_service_matching.1 ⟨[⟨1, "Sam", ["94110"], ["plumbing"]⟩], []⟩ "PLUMBING"
    "plumbing" "94110" "June 01, 2026" "10:00 AM" (by decide)

/-! ## C7 -/

/-- Sortedness of `sorted(set(_))`. -/
theorem sorted_sortedSet (l : List String) :
    List.Sorted (· ≤ ·) (List.insertionSort (· ≤ ·) l.dedup) :=
  List.sorted_insertionSort _ _

/-- `sorted(set(_))` has no duplicates. -/
theorem nodup_sortedSet (l : List String) :
    (List.insertionSort (· ≤ ·) l.dedup).Nodup :=
  ((List.perm_insertionSort _ _).nodup_iff).mpr (List.nodup_dedup l)

/-- Membership in `sorted(set(_))` is membership in the original. -/
theorem mem_sortedSet {a : String} {l : List String} :
    a ∈ List.insertionSort (· ≤ ·) l.dedup ↔ a ∈ l :=
  ((List.perm_insertionSort _ _).mem_iff).trans List.mem_dedup

/-- `sorted(set(_))` is invariant under permutation of the input. -/
theorem sortedSet_perm_eq {l1 l2 : List String} (h : l1.Perm l2) :
    List.insertionSort (· ≤ ·) l1.dedup = List.insertionSort (· ≤ ·) l2.dedup :=
  List.eq_of_perm_of_sorted
    ((List.perm_insertionSort _ _).trans
      (h.dedup.trans (List.perm_insertionSort _ _).symm))
    (List.sorted_insertionSort _ _) (List.sorted_insertionSort _ _)

/-- Counterexample for C7: the services returned are not lower-cased —
a roster entry `"Plumbing"` comes back verbatim, capital letter and
all. -/
theorem c7_counterexample :
    getAvailableServices ⟨[⟨1, "Sam", ["94110"], ["Plumbing"]⟩], []⟩ =
      ["Plumbing"] ∧
    lowerString "Plumbing" ≠ "Plumbing" := by
  constructor <;> decide

/-- C7 (amended): `get_available_services` returns the distinct
service-category strings aggregated across all technicians — exactly as
stored, not lower-cased — sorted ascending, and `get_service_zones`
likewise for zip codes; both are duplicate-free and deterministic under
any reordering of the roster. -/
theorem c7_aggregation_queries :
    (∀ bs : BookingSystem,
      (getAvailableServices bs).Nodup ∧
      List.Sorted (· ≤ ·) (getAvailableServices bs) ∧
      (∀ s, s ∈ getAvailableServices bs ↔
        ∃ tech ∈ bs.technicians, s ∈ tech.business_units) ∧
      (getServiceZones bs).Nodup ∧
      List.Sorted (· ≤ ·) (getServiceZones bs) ∧
      (∀ z, z ∈ getServiceZones bs ↔ ∃ tech ∈ bs.technicians, z ∈ tech.zones)) ∧
    (∀ bs1 bs2 : BookingSystem, bs1.technicians.Perm bs2.technicians →
      getAvailableServices bs1 = getAvailableServices bs2 ∧
      getServiceZones bs1 = getServiceZones bs2) := by
  constructor
  · intro bs
    refine ⟨nodup_sortedSet _, sorted_sortedSet _, fun s => ?_,
      nodup_sortedSet _, sorted_sortedSet _, fun z => ?_⟩
    · exact mem_sortedSet.trans List.mem_flatMap
    · exact mem_sortedSet.trans List.mem_flatMap
  · intro bs1 bs2 h
    exact ⟨sortedSet_perm_eq (h.flatMap_right _),
      sortedSet_perm_eq (h.flatMap_right _)⟩

/-- Witness for C7: two reorderings of a two-technician roster give
identical query results. -/
theorem c7_witness :
    ([⟨1, "Sam", ["94110"], ["plumbing"]⟩,
      ⟨2, "Ann", ["94112"], ["hvac"]⟩] : List Technician).Perm
      [⟨2, "Ann", ["94112"], ["hvac"]⟩, ⟨1, "Sam", ["94110"], ["plumbing"]⟩] ∧
    getAvailableServices ⟨[⟨1, "Sam", ["94110"], ["plumbing"]⟩,
        ⟨2, "Ann", ["94112"], ["hvac"]⟩], []⟩ =
      getAvailableServices ⟨[⟨2, "Ann", ["94112"], ["hvac"]⟩,
        ⟨1, "Sam", ["94110"], ["plumbing"]⟩], []⟩ ∧
    getServiceZones ⟨[⟨1, "Sam", ["94110"], ["plumbing"]⟩,
        ⟨2, "Ann", ["94112"], ["hvac"]⟩], []⟩ =
      getServiceZones ⟨[⟨2, "Ann", ["94112"], ["hvac"]⟩,
        ⟨1, "Sam", ["94110"], ["plumbing"]⟩], []⟩ := by
  refine ⟨by decide, ?_, ?_⟩
  · exact (c7_aggregation_queries.2 ⟨[⟨1, "Sam", ["94110"], ["plumbing"]⟩,
      ⟨2, "Ann", ["94112"], ["hvac"]⟩], []⟩ ⟨[⟨2, "Ann", ["94112"], ["hvac"]⟩,
      ⟨1, "Sam", ["94110"], ["plumbing"]⟩], []⟩ (by decide)).1
  · exact (c7_aggregation_queries.2 ⟨[⟨1, "Sam", ["94110"], ["plumbing"]⟩,
      ⟨2, "Ann", ["94112"], ["hvac"]⟩], []⟩ ⟨[⟨2, "Ann", ["94112"], ["hvac"]⟩,
      ⟨1, "Sam", ["94110"], ["plumbing"]⟩], []⟩ (by decide)).2

/-! ## C1 -/

/-- A technician who is not booked keeps the invariant's gap between
every current ledger entry and a new appointment in their name. -/
theorem apptGap_of_not_booked {appts : List Appointment} {tech : Technician}
    {date time : String} (h : isBooked appts tech date time = false)
    {a : Appointment} (ha : a ∈ appts) (b : Appointment)
    (hbname : b.technician_name = tech.name) (hbdate : b.date = date)
    (hbtime : b.time = time) : apptGap a b := by
  intro hname hdate m1 m2 h1 h2
  rw [isBooked, List.any_eq_false] at h
  have hfalse := h a ha
  rw [hbname] at hname
  rw [hbdate] at hdate
  rw [hbtime] at h2
  simp [conflictsWith, hname, hdate, h1, h2] at hfalse
  exact hfalse

/-- C1: starting from an empty ledger, after every sequence of
`book_appointment` calls the ledger never holds two appointments for
the same technician name on the same date whose time strings both parse
as `"%I:%M %p"` values less than 120 minutes apart (entries whose time
string does not parse are exempt, per the string-equality fallback). -/
theorem c1_ledger_conflict_invariant (bs : BookingSystem)
    (h : Reachable bs) : ConflictFree bs.appointments := by
  induction h with
  | init roster => exact List.Pairwise.nil
  | step bs customer_name service zip_code date time hr ih =>
    rcases hf : findTechnician bs service zip_code date time with _ | tech
    · simpa [bookAppointment, hf] using ih
    · have hnb := not_booked_of_findTechnician hf
      simp only [bookAppointment, hf]
      unfold ConflictFree
      rw [List.pairwise_append]
      refine ⟨ih, List.pairwise_singleton _ _, ?_⟩
      intro a ha b hb
      rw [List.mem_singleton] at hb
      subst hb
      exact apptGap_of_not_booked hnb ha _ rfl rfl rfl

/-- Witness for C1: the state after one successful booking is reachable
and its ledger is conflict-free. -/
theorem c1_witness :
    Reachable (bookAppointment ⟨[⟨1, "Sam", ["94110"], ["plumbing"]⟩], []⟩
      "Alice" "plumbing" "94110" "June 01, 2026" "10:00 AM").2 ∧
    ConflictFree (bookAppointment ⟨[⟨1, "Sam", ["94110"], ["plumbing"]⟩], []⟩
      "Alice" "plumbing" "94110" "June 01, 2026" "10:00 AM").2.appointments :=
  have hr : Reachable (bookAppointment ⟨[⟨1, "Sam", ["94110"], ["plumbing"]⟩], []⟩
      "Alice" "plumbing" "94110" "June 01, 2026" "10:00 AM").2 :=
    Reachable.step _ "Alice" "plumbing" "94110" "June 01, 2026" "10:00 AM"
      (Reachable.init [⟨1, "Sam", ["94110"], ["plumbing"]⟩])
  ⟨hr, c1_ledger_conflict_invariant _ hr⟩

/-! ## C3 -/

/-- All two-digit inputs whose value is outside 1..12 are rejected by
the bare-hour special case's early `return None`, checked by
exhaustive evaluation. -/
theorem bareHour_out_of_range_aux :
    ∀ a b : Fin 10, (10 * a.val + b.val = 0 ∨ 12 < 10 * a.val + b.val) →
      parseTime ⟨[Char.ofNat (48 + a.val), Char.ofNat (48 + b.val)]⟩ = none := by
  decide

/-- Counterexample for C3: `parse_time("13")` does not succeed via the
24-hour fallback pattern list — the bare-hour special case returns
`None` outright for an hour outside 1..12, so the fallback is never
reached. -/
theorem c3_counterexample : parseTime "13" = none := by decide

/-- C3 (amended): every one- or two-digit numeric input whose value is
outside 1..12 makes `parse_time` return the not-parseable result (the
bare-hour special case returns early instead of falling through to the
24-hour list); inputs with additional 24-hour context do reach the
fallback, and `parse_time("13:00") = "01:00 PM"`. -/
theorem c3_bare_hour_out_of_range :
    parseTime "0" = none ∧
    (∀ d1 d2 : Nat, d1 < 10 → d2 < 10 →
      (10 * d1 + d2 = 0 ∨ 12 < 10 * d1 + d2) →
      parseTime ⟨[Char.ofNat (48 + d1), Char.ofNat (48 + d2)]⟩ = none) ∧
    parseTime "13:00" = some "01:00 PM" := by
  refine ⟨by decide, ?_, by decide⟩
  intro d1 d2 h1 h2 hv
  exact bareHour_out_of_range_aux ⟨d1, h1⟩ ⟨d2, h2⟩ hv

/-- Witness for C3: the digits 1 and 3 form the two-digit input `"13"`,
whose value 13 is out of range, and `parse_time` rejects it. -/
theorem c3_witness :
    (1 : Nat) < 10 ∧ (3 : Nat) < 10 ∧
    ((10 * 1 + 3 : Nat) = 0 ∨ (12 : Nat) < 10 * 1 + 3) ∧
    parseTime ⟨[Char.ofNat (48 + 1), Char.ofNat (48 + 3)]⟩ = none :=
  ⟨by decide, by decide, Or.inr (by decide),
    c3_bare_hour_out_of_range.2.1 1 3 (by decide) (by decide)
      (Or.inr (by decide))⟩

/-! ## C8 -/

/-- `findSome?` over a split list returns the marked element's value
when everything before it yields `none`. -/
theorem findSome_eq_of_front_none {α β : Type} (f : α → Option β) :
    ∀ (pre : List α) (x : α) (post : List α) (b : β),
      (∀ g ∈ pre, f g = none) → f x = some b →
      (pre ++ x :: post).findSome? f = some b := by
  intro pre
  induction pre with
  | nil =>
    intro x post b _ hx
    simp [List.findSome?_cons, hx]
  | cons a as ih =>
    intro x post b hpre hx
    have ha : f a = none := hpre a (List.mem_cons_self a as)
    simp only [List.cons_append, List.findSome?_cons, ha]
    exact ih x post b (fun g hg => hpre g (List.mem_cons_of_mem a hg)) hx

/-- C8: `parse_date` tries its fixed pattern list in order and the
first full match wins: whenever every format before some format in the
list fails and that format parses, its rendering is the result.  The
ambiguous `"02/03/2026"` matches both the US pattern (February 3) and
the European pattern (March 2), and resolves to the US reading
`"February 03, 2026"` because `%m/%d/%Y` comes first. -/
theorem c8_date_tiebreak :
    strptimeDate fmt_mdY_slash (stripChars "02/03/2026".data) =
      some ⟨2026, 2, 3⟩ ∧
    strptimeDate fmt_dmY_slash (stripChars "02/03/2026".data) =
      some ⟨2026, 3, 2⟩ ∧
    parseDate "02/03/2026" = some "February 03, 2026" ∧
    (∀ (date_str : String) (pre post : List (List DateTok)) (fmt : List DateTok)
        (p : DateParts),
      dateFormats = pre ++ fmt :: post →
      (∀ g ∈ pre, strptimeDate g (stripChars date_str.data) = none) →
      strptimeDate fmt (stripChars date_str.data) = some p →
      parseDate date_str = some (renderDate p)) := by
  refine ⟨by decide, by decide, by decide, ?_⟩
  intro date_str pre post fmt p hsplit hpre hfmt
  rw [parseDate, hsplit]
  exact findSome_eq_of_front_none _ pre fmt post (renderDate p)
    (fun g hg => by rw [hpre g hg]; rfl) (by rw [hfmt]; rfl)

/-- Witness for C8: for `"02/03/2026"` the only earlier format, ISO
`%Y-%m-%d`, fails, the US format parses February 3, and `parse_date`
renders the US reading. -/
theorem c8_witness :
    dateFormats = [fmt_Ymd] ++ fmt_mdY_slash :: [fmt_mdY_dash, fmt_dmY_slash,
      fmt_dmY_dash, fmt_BdY, fmt_bdY, fmt_dBY, fmt_dbY, fmt_Ymd_slash,
      fmt_mdy, fmt_dmy] ∧
    (∀ g ∈ [fmt_Ymd], strptimeDate g (stripChars "02/03/2026".data) = none) ∧
    strptimeDate fmt_mdY_slash (stripChars "02/03/2026".data) =
      some ⟨2026, 2, 3⟩ ∧
    parseDate "02/03/2026" = some (renderDate ⟨2026, 2, 3⟩) :=
  ⟨rfl, by decide, by decide,
    c8_date_tiebreak.2.2.2 "02/03/2026" [fmt_Ymd] [fmt_mdY_dash, fmt_dmY_slash,
      fmt_dmY_dash, fmt_BdY, fmt_bdY, fmt_dBY, fmt_dbY, fmt_Ymd_slash,
      fmt_mdy, fmt_dmy] fmt_mdY_slash ⟨2026, 2, 3⟩ rfl (by decide) (by decide)⟩
